import Mathlib

/-!
# Shallow embedding of `gcp_find.py` (Find-GCP)

This file embeds the observable behaviour of the Find-GCP command line tool
(`src/gcp_find.py`): loading the world coordinate file (`GcpFind.coo_input`),
processing the images (`GcpFind.process_images` / `GcpFind.process_image`),
and the text formatting of the emitted GCP records.

Modelling conventions:
* The marker detection itself is performed by OpenCV (`aruco.detectMarkers`)
  and is out of scope; an image is modelled by its *detection result*
  (`ImageData`): unreadable (`cv2.imread` returned `None`), no markers found
  (`ids is None`), or a list of `(id, four corners)` pairs in detection order.
* Python floats are modelled by exact rationals `ℚ`; the program performs no
  float arithmetic other than the 4-corner average, rounding (`int(round …)`,
  half-to-even like Python's `round`) and fixed `{:.3f}` formatting.
* Python dicts are modelled by insertion-ordered association lists
  (`Dict α := List (ℤ × α)`), with `dictGet?`/`dictSet` the subscript
  operations.
* Console output (`print`) and the output file (`self.foutput.write`) are
  accumulated in explicit lists of strings; an output line carries its
  trailing `"\n"` exactly as written by the code.
* An uncaught Python exception is modelled by `Except.error`: `coo_input`
  calls `int(...)`/`float(...)` on the fields of any line with at least four
  fields, which raises `ValueError` on non-numeric text, so the embedding of
  `coo_input` returns `Except String _`.
* `matplotlib` debug plotting (`args.debug`) only opens windows and is not
  modelled; everything else in the processing path is.
-/

/-- Python `str.strip()`: drop leading and trailing whitespace. -/
def pyStrip (s : String) : String :=
  String.mk (((s.data.dropWhile Char.isWhitespace).reverse.dropWhile
    Char.isWhitespace).reverse)

/-- Split a character list on a nonempty separator, keeping empty fields.
The fuel argument bounds the recursion by the length of the list. -/
def splitAux (sep : List Char) : ℕ → List Char → List Char → List (List Char)
  | _, acc, [] => [acc.reverse]
  | 0, acc, rest => [acc.reverse ++ rest]
  | fuel + 1, acc, c :: rest =>
    if sep.isPrefixOf (c :: rest) then
      acc.reverse :: splitAux sep fuel [] ((c :: rest).drop sep.length)
    else splitAux sep fuel (c :: acc) rest

/-- Python `str.split(sep)` on an explicit separator: splits on every
occurrence and keeps empty fields. (On the empty separator Python raises
`ValueError`; the program's separator comes from `--separator`, a
nonempty string, so that case is immaterial and returns `[s]` here.) -/
def pySplit (sep : String) (s : String) : List String :=
  if sep.data.isEmpty then [s]
  else (splitAux sep.data (s.data.length + 1) [] s.data).map String.mk

/-- Value of a list of decimal digit characters. -/
def digitsVal (l : List Char) : ℕ :=
  l.foldl (fun a c => a * 10 + (c.toNat - 48)) 0

/-- All characters are decimal digits. -/
def allDigits (l : List Char) : Bool :=
  l.all (·.isDigit)

/-- Nonempty all-digit string to `ℕ`, else `none`. -/
def pyNat (l : List Char) : Option ℕ :=
  if l ≠ [] ∧ allDigits l then some (digitsVal l) else none

/-- Python's `int(s)` on decimal literals: surrounding whitespace stripped,
optional sign, then a nonempty digit string; anything else raises
`ValueError`, modelled by `none`. (Underscores, other bases and unicode
digits are not needed by this program's inputs and are not modelled.) -/
def pyInt (s : String) : Option ℤ :=
  match (pyStrip s).data with
  | '-' :: r => (pyNat r).map (fun n => -(n : ℤ))
  | '+' :: r => (pyNat r).map (fun n => (n : ℤ))
  | l => (pyNat l).map (fun n => (n : ℤ))

/-- Magnitude part of a float literal: `digits`, `digits.digits`,
`digits.` or `.digits`, valued as an exact rational. -/
def pyFloatMag (l : List Char) : Option ℚ :=
  match splitAux ['.'] (l.length + 1) [] l with
  | [a] => (pyNat a).map (fun n => (n : ℚ))
  | [a, b] =>
    if (a ≠ [] ∨ b ≠ []) ∧ allDigits a ∧ allDigits b then
      some ((digitsVal a : ℚ) + (digitsVal b : ℚ) / (10 : ℚ) ^ b.length)
    else none
  | _ => none

/-- Python's `float(s)` on plain decimal literals: surrounding whitespace
stripped, optional sign, digits with at most one decimal point; anything
else raises `ValueError`, modelled by `none`. The value is the exact
decimal rational (IEEE rounding of the literal is not modelled; the program
only formats these values back to text). -/
def pyFloat (s : String) : Option ℚ :=
  match (pyStrip s).data with
  | '-' :: r => (pyFloatMag r).map (fun q => -q)
  | '+' :: r => pyFloatMag r
  | l => pyFloatMag l

/-- Python's `round` to an integer: nearest, ties to even
(`int(round(x))` in the source). -/
def pyRound (q : ℚ) : ℤ :=
  let f := ⌊q⌋
  if q - f < 1 / 2 then f
  else if 1 / 2 < q - f then f + 1
  else if f % 2 = 0 then f else f + 1

/-- `np.average` of a list of numbers: sum divided by length. -/
def np_average (l : List ℚ) : ℚ :=
  l.sum / (l.length : ℚ)

/-- Decimal digits of `n`, padded on the left with `0` to width 3
(helper for `{:.3f}` formatting of the fractional part). -/
def pad3 (n : ℕ) : String :=
  if n < 10 then "00" ++ toString n
  else if n < 100 then "0" ++ toString n
  else toString n

/-- Python `'{:.3f}'.format(v)`: fixed-point with exactly three decimals,
rounding ties to even. -/
def fmt3 (q : ℚ) : String :=
  let n := pyRound (q * 1000)
  (if n < 0 then "-" else "") ++
    toString (n.natAbs / 1000) ++ "." ++ pad3 (n.natAbs % 1000)

/-- `os.path.basename` on POSIX paths: the part after the last `/`. -/
def basename (s : String) : String :=
  (pySplit "/" s).getLastD s

/-- Python `repr` of a list of ints, as produced by
`'...'.format(sorted(idsl))`. -/
def pyIntListRepr (l : List ℤ) : String :=
  "[" ++ String.intercalate ", " (l.map toString) ++ "]"

/-- Python `repr` of a list of strings, as produced by
`'...'.format(self.gcp_found[j])`. -/
def pyStrListRepr (l : List String) : String :=
  "[" ++ String.intercalate ", " (l.map (fun s => "\x27" ++ s ++ "\x27")) ++ "]"

/-- A Python dict with `ℤ` keys, as an insertion-ordered association list. -/
abbrev Dict (α : Type) := List (ℤ × α)

/-- Dict lookup `d[k]` / `d.get(k)`: value of the (unique) entry with key
`k`, if present. -/
def dictGet? {α : Type} (d : Dict α) (k : ℤ) : Option α :=
  match d with
  | [] => none
  | p :: rest => if p.1 = k then some p.2 else dictGet? rest k

/-- Dict membership `k in d`. -/
def dictMem {α : Type} (d : Dict α) (k : ℤ) : Bool :=
  (dictGet? d k).isSome

/-- Dict assignment `d[k] = v`: replaces the entry in place when the key is
present, otherwise appends (Python dicts preserve insertion order). -/
def dictSet {α : Type} (d : Dict α) (k : ℤ) (v : α) : Dict α :=
  match d with
  | [] => [(k, v)]
  | p :: rest => if p.1 = k then (k, v) :: rest else p :: dictSet rest k v

/-- World coordinates of a GCP: easting, northing, elevation. -/
abbrev Coord3 := ℚ × ℚ × ℚ

/-- The four corners of a detected marker (`corners[i][0]`, a 4×2 array),
each an `(x, y)` pixel position. -/
structure Corners4 where
  p0 : ℚ × ℚ
  p1 : ℚ × ℚ
  p2 : ℚ × ℚ
  p3 : ℚ × ℚ
  deriving DecidableEq

/-- The column `corners[i][0][:, 0]` of x coordinates. -/
def Corners4.xs (c : Corners4) : List ℚ :=
  [c.p0.1, c.p1.1, c.p2.1, c.p3.1]

/-- The column `corners[i][0][:, 1]` of y coordinates. -/
def Corners4.ys (c : Corners4) : List ℚ :=
  [c.p0.2, c.p1.2, c.p2.2, c.p3.2]

/-- The `-t`/`--type` command line flag: `ODM`, `VisualSfM`, or the default
empty string. -/
inductive OutType where
  | ODM
  | VisualSfM
  | dflt
  deriving DecidableEq

/-- The command line options that influence the processing loop
(`--debug` only opens matplotlib windows and is not modelled). -/
structure Args where
  type : OutType
  verbose : Bool

/-- Detection outcome for one image: `cv2.imread` returned `None`;
`detectMarkers` found nothing (`ids is None`); or the detected markers as
`(id, corners)` in detection order. -/
inductive ImageData where
  | unreadable
  | noMarkers
  | markers (ms : List (ℤ × Corners4))

/-- Mutable state of `GcpFind` during `process_images`: the
`gcp_found` dict (marker id → image names), the lines written to the
output file, and the lines printed to the console. `self.coords` is never
written during processing and is passed separately. -/
structure ProcState where
  gcp_found : Dict (List String)
  output : List String
  prints : List String
  deriving DecidableEq

/-- Body of the `for i in range(ids.size)` loop of
`GcpFind.process_image`, for one detected marker `(j, corners)`:
record the image under `j` in `gcp_found`, compute the rounded centre,
and emit the record in the layout of `args.type`. -/
def process_marker (ty : OutType) (coords : Dict Coord3) (st : ProcState)
    (image_name : String) (m : ℤ × Corners4) : ProcState :=
  let j := m.1
  let gf := dictSet st.gcp_found j
    (((dictGet? st.gcp_found j).getD []) ++ [image_name])
  let x := pyRound (np_average m.2.xs)
  let y := pyRound (np_average m.2.ys)
  match ty with
  | .ODM =>
    match dictGet? coords j with
    | some c =>
      { st with
        gcp_found := gf
        output := st.output ++
          [fmt3 c.1 ++ " " ++ fmt3 c.2.1 ++ " " ++ fmt3 c.2.2 ++ " " ++
            toString x ++ " " ++ toString y ++ " " ++ basename image_name ++
            " " ++ toString j ++ "\n"] }
    | none =>
      { st with
        gcp_found := gf
        prints := st.prints ++ ["No coordinates for " ++ toString j] }
  | .VisualSfM =>
    match dictGet? coords j with
    | some c =>
      { st with
        gcp_found := gf
        output := st.output ++
          [basename image_name ++ " " ++ toString x ++ " " ++ toString y ++
            " " ++ fmt3 c.1 ++ " " ++ fmt3 c.2.1 ++ " " ++ fmt3 c.2.2 ++ "\n"] }
    | none =>
      { st with
        gcp_found := gf
        prints := st.prints ++ ["No coordinates for " ++ toString j] }
  | .dflt =>
    match dictGet? coords j with
    | some c =>
      { st with
        gcp_found := gf
        output := st.output ++
          [fmt3 c.1 ++ " " ++ fmt3 c.2.1 ++ " " ++ fmt3 c.2.2 ++ " " ++
            toString x ++ " " ++ toString y ++ " " ++ basename image_name ++
            "\n"] }
    | none =>
      { st with
        gcp_found := gf
        output := st.output ++
          [toString j ++ " " ++ toString x ++ " " ++ toString y ++ " " ++
            basename image_name ++ "\n"] }

/-- `GcpFind.process_image`: skip unreadable images and images without
markers with a printed message; otherwise warn about duplicate ids, then
process each detected marker in order. -/
def process_image (a : Args) (coords : Dict Coord3) (st : ProcState)
    (image_name : String) (img : ImageData) : ProcState :=
  match img with
  | .unreadable =>
    { st with prints := st.prints ++ ["error reading image: " ++ image_name] }
  | .noMarkers =>
    { st with prints := st.prints ++ ["No markers found on image " ++ image_name] }
  | .markers ms =>
    let idsl := ms.map (·.1)
    let st1 :=
      if idsl.length - idsl.dedup.length ≠ 0 then
        { st with prints := st.prints ++
            ["duplicate markers on image " ++ image_name,
             "marker ids: " ++ pyIntListRepr (idsl.insertionSort (· ≤ ·))] }
      else st
    let st2 :=
      if a.verbose then
        { st1 with prints := st1.prints ++
            ["  " ++ toString idsl.length ++ " GCP markers found"] }
      else st1
    ms.foldl (fun s m => process_marker a.type coords s image_name m) st2

/-- The `for f_name in self.args.names` loop of `GcpFind.process_images`:
with `--verbose` print `processing <name>` first, then process the image. -/
def process_images_loop (a : Args) (coords : Dict Coord3) (st : ProcState)
    (images : List (String × ImageData)) : ProcState :=
  match images with
  | [] => st
  | p :: rest =>
    let s1 := if a.verbose then
        { st with prints := st.prints ++ ["processing " ++ p.1] }
      else st
    process_images_loop a coords (process_image a coords s1 p.1 p.2) rest

/-- The verbose per-GCP summary printed by `GcpFind.process_images`:
`GCP<id>: on <n> images <list>` for each entry of `gcp_found`, in dict
(insertion) order. -/
def gcpSummary (g : Dict (List String)) : List String :=
  g.map (fun p => "GCP" ++ toString p.1 ++ ": on " ++ toString p.2.length ++
    " images " ++ pyStrListRepr p.2)

/-- `GcpFind.process_images`: process the images in command line order;
with `--verbose`, print the per-GCP summary at the end. -/
def process_images (a : Args) (coords : Dict Coord3) (st : ProcState)
    (images : List (String × ImageData)) : ProcState :=
  let st1 := process_images_loop a coords st images
  if a.verbose then
    { st1 with prints := st1.prints ++ gcpSummary st1.gcp_found }
  else st1

/-- State built by `GcpFind.coo_input`: the `coords` dict and the console
prints. -/
structure CooAcc where
  coords : Dict Coord3
  prints : List String
  deriving DecidableEq

/-- Body of the `for line in self.finput` loop of `GcpFind.coo_input`:
strip and split the line; fewer than 4 fields is reported as illegal
input and skipped; otherwise `int(field0)` and `float(field1..3)` are
taken (raising `ValueError`, i.e. `Except.error`, on non-numeric text)
and stored; fields beyond the fourth are ignored (`co_list[1:4]`). -/
def coo_line (sep : String) (acc : CooAcc) (line : String) :
    Except String CooAcc :=
  let co_list := pySplit sep (pyStrip line)
  match co_list with
  | f0 :: f1 :: f2 :: f3 :: _ =>
    match pyInt f0, pyFloat f1, pyFloat f2, pyFloat f3 with
    | some j, some e, some n, some h =>
      .ok { acc with coords := dictSet acc.coords j (e, n, h) }
    | _, _, _, _ => .error "ValueError"
  | _ =>
    .ok { acc with prints := acc.prints ++ ["Illegal input: " ++ line] }

/-- `GcpFind.coo_input`: fold `coo_line` over the lines of the coordinate
file; an uncaught `ValueError` aborts the whole load (and the program,
since no caller catches it). -/
def coo_input (sep : String) (acc : CooAcc) (lines : List String) :
    Except String CooAcc :=
  match lines with
  | [] => .ok acc
  | l :: rest =>
    match coo_line sep acc l with
    | .ok acc1 => coo_input sep acc1 rest
    | .error e => .error e

/-- Specification-side description of the lines written to the output file
for one detected marker with id `j`, rounded centre `(x, y)` and image
basename `bn`, given its world coordinates `co` (if any): one fixed text
layout per output type. Written independently of `process_marker` for
comparison. -/
def markerLines (ty : OutType) (co : Option Coord3) (j x y : ℤ)
    (bn : String) : List String :=
  match ty, co with
  | .ODM, some (e, n, h) =>
    [fmt3 e ++ " " ++ fmt3 n ++ " " ++ fmt3 h ++ " " ++ toString x ++ " " ++
      toString y ++ " " ++ bn ++ " " ++ toString j ++ "\n"]
  | .ODM, none => []
  | .VisualSfM, some (e, n, h) =>
    [bn ++ " " ++ toString x ++ " " ++ toString y ++ " " ++ fmt3 e ++ " " ++
      fmt3 n ++ " " ++ fmt3 h ++ "\n"]
  | .VisualSfM, none => []
  | .dflt, some (e, n, h) =>
    [fmt3 e ++ " " ++ fmt3 n ++ " " ++ fmt3 h ++ " " ++ toString x ++ " " ++
      toString y ++ " " ++ bn ++ "\n"]
  | .dflt, none =>
    [toString j ++ " " ++ toString x ++ " " ++ toString y ++ " " ++ bn ++ "\n"]

/-- Console warnings printed for one detected marker. -/
def markerPrints (ty : OutType) (co : Option Coord3) (j : ℤ) : List String :=
  match ty, co with
  | .ODM, none => ["No coordinates for " ++ toString j]
  | .VisualSfM, none => ["No coordinates for " ++ toString j]
  | _, _ => []

/-- The rounded centre x of a marker (`int(round(np.average(...)))`). -/
def centerX (c : Corners4) : ℤ := pyRound (np_average c.xs)

/-- The rounded centre y of a marker. -/
def centerY (c : Corners4) : ℤ := pyRound (np_average c.ys)

/-- Output-file lines contributed by a whole image (detection order). -/
def imageOut (ty : OutType) (coords : Dict Coord3) (nm : String)
    (img : ImageData) : List String :=
  match img with
  | .markers ms =>
    (ms.map (fun m => markerLines ty (dictGet? coords m.1) m.1
      (centerX m.2) (centerY m.2) (basename nm))).flatten
  | _ => []

/-- `gcp_found` after one image: unchanged for a skipped image, otherwise
one append per detected marker occurrence. -/
def imageGcp (g : Dict (List String)) (nm : String) (img : ImageData) :
    Dict (List String) :=
  match img with
  | .markers ms =>
    ms.foldl (fun d m => dictSet d m.1 ((dictGet? d m.1).getD [] ++ [nm])) g
  | _ => g

/-- Console lines printed while processing one image (excluding the
`processing <name>` verbose line of the outer loop). -/
def imagePrints (a : Args) (coords : Dict Coord3) (nm : String)
    (img : ImageData) : List String :=
  match img with
  | .unreadable => ["error reading image: " ++ nm]
  | .noMarkers => ["No markers found on image " ++ nm]
  | .markers ms =>
    (if (ms.map (·.1)).length - (ms.map (·.1)).dedup.length ≠ 0 then
      ["duplicate markers on image " ++ nm,
       "marker ids: " ++ pyIntListRepr ((ms.map (·.1)).insertionSort (· ≤ ·))]
    else []) ++
    (if a.verbose then
      ["  " ++ toString (ms.map (·.1)).length ++ " GCP markers found"]
    else []) ++
    (ms.map (fun m => markerPrints a.type (dictGet? coords m.1) m.1)).flatten

/-- The image list a marker id is mapped to in `gcp_found` (`[]` when the
id has never been seen). -/
def dictGetList (g : Dict (List String)) (j : ℤ) : List String :=
  (dictGet? g j).getD []

/-- `gcp_found` accumulated over a whole run. -/
def runGcp (g : Dict (List String))
    (images : List (String × ImageData)) : Dict (List String) :=
  images.foldl (fun d p => imageGcp d p.1 p.2) g

/-- Output-file lines of a whole run: grouped by image in command line
order, within an image in detection order. -/
def runOut (ty : OutType) (coords : Dict Coord3)
    (images : List (String × ImageData)) : List String :=
  (images.map (fun p => imageOut ty coords p.1 p.2)).flatten

/-- Console lines of the image loop of a whole run. -/
def runPrints (a : Args) (coords : Dict Coord3)
    (images : List (String × ImageData)) : List String :=
  (images.map (fun p =>
    (if a.verbose then ["processing " ++ p.1] else []) ++
      imagePrints a coords p.1 p.2)).flatten

/-- A coordinate-file line on which `coo_line` cannot raise: either fewer
than four fields, or the first four fields parse as `int`, `float`,
`float`, `float`. -/
def wellformed (sep : String) (line : String) : Bool :=
  match pySplit sep (pyStrip line) with
  | f0 :: f1 :: f2 :: f3 :: _ =>
    (pyInt f0).isSome && (pyFloat f1).isSome &&
      (pyFloat f2).isSome && (pyFloat f3).isSome
  | _ => true

/-- Concrete marker corners whose x centroid is not an integer
(x values 0, 0, 0, 1). -/
def cornersC1 : Corners4 := ⟨(0, 0), (0, 0), (0, 0), (1, 0)⟩

/-- Concrete marker corners with centre (1, 1). -/
def cornersB : Corners4 := ⟨(1, 1), (1, 1), (1, 1), (1, 1)⟩

attribute [local semireducible] Rat.add Rat.sub Rat.mul Rat.inv

theorem dictGet?_dictSet_self {α : Type} (d : Dict α) (k : ℤ) (v : α) :
    dictGet? (dictSet d k v) k = some v := by
  induction d with
  | nil => simp [dictSet, dictGet?]
  | cons p rest ih =>
    by_cases h : p.1 = k <;> simp [dictSet, dictGet?, h, ih]

theorem dictGet?_dictSet_ne {α : Type} (d : Dict α) (k j : ℤ) (v : α)
    (h : j ≠ k) : dictGet? (dictSet d k v) j = dictGet? d j := by
  have hne : ¬k = j := fun hh => h hh.symm
  induction d with
  | nil => simp [dictSet, dictGet?, hne]
  | cons p rest ih =>
    by_cases hp : p.1 = k
    · subst hp
      simp [dictSet, dictGet?, hne]
    · simp [dictSet, dictGet?, hp, ih]

theorem process_marker_eq (ty : OutType) (coords : Dict Coord3)
    (st : ProcState) (nm : String) (m : ℤ × Corners4) :
    process_marker ty coords st nm m =
      { gcp_found := dictSet st.gcp_found m.1
          ((dictGet? st.gcp_found m.1).getD [] ++ [nm])
        output := st.output ++ markerLines ty (dictGet? coords m.1) m.1
          (centerX m.2) (centerY m.2) (basename nm)
        prints := st.prints ++ markerPrints ty (dictGet? coords m.1) m.1 } := by
  obtain ⟨j, c⟩ := m
  cases ty <;>
    rcases h : dictGet? coords j with _ | ⟨e, n, el⟩ <;>
      simp [process_marker, markerLines, markerPrints, centerX, centerY, h]

theorem foldl_process_marker (ty : OutType) (coords : Dict Coord3)
    (nm : String) (ms : List (ℤ × Corners4)) : ∀ st : ProcState,
    ms.foldl (fun s m => process_marker ty coords s nm m) st =
      { gcp_found := ms.foldl
          (fun d m => dictSet d m.1 ((dictGet? d m.1).getD [] ++ [nm]))
          st.gcp_found
        output := st.output ++ (ms.map (fun m => markerLines ty
          (dictGet? coords m.1) m.1 (centerX m.2) (centerY m.2)
          (basename nm))).flatten
        prints := st.prints ++ (ms.map (fun m => markerPrints ty
          (dictGet? coords m.1) m.1)).flatten } := by
  induction ms with
  | nil => intro st; simp
  | cons m rest ih =>
    intro st
    rw [List.foldl_cons, List.foldl_cons, process_marker_eq, ih]
    simp

theorem process_image_eq (a : Args) (coords : Dict Coord3) (st : ProcState)
    (nm : String) (img : ImageData) :
    process_image a coords st nm img =
      { gcp_found := imageGcp st.gcp_found nm img
        output := st.output ++ imageOut a.type coords nm img
        prints := st.prints ++ imagePrints a coords nm img } := by
  cases img with
  | unreadable => simp [process_image, imageGcp, imageOut, imagePrints]
  | noMarkers => simp [process_image, imageGcp, imageOut, imagePrints]
  | markers ms =>
    by_cases hd : ms.length - (ms.map (·.1)).dedup.length = 0 <;>
      by_cases hv : a.verbose <;>
        simp [process_image, imageGcp, imageOut, imagePrints, hd, hv,
          foldl_process_marker]

theorem process_images_loop_eq (a : Args) (coords : Dict Coord3)
    (images : List (String × ImageData)) : ∀ st : ProcState,
    process_images_loop a coords st images =
      { gcp_found := runGcp st.gcp_found images
        output := st.output ++ runOut a.type coords images
        prints := st.prints ++ runPrints a coords images } := by
  induction images with
  | nil => intro st; simp [process_images_loop, runGcp, runOut, runPrints]
  | cons p rest ih =>
    intro st
    rw [process_images_loop, process_image_eq, ih]
    by_cases hv : a.verbose <;>
      simp [hv, runGcp, runOut, runPrints]

theorem process_images_eq (a : Args) (coords : Dict Coord3) (st : ProcState)
    (images : List (String × ImageData)) :
    process_images a coords st images =
      { gcp_found := runGcp st.gcp_found images
        output := st.output ++ runOut a.type coords images
        prints := st.prints ++ runPrints a coords images ++
          (if a.verbose then gcpSummary (runGcp st.gcp_found images)
           else []) } := by
  rw [process_images, process_images_loop_eq]
  by_cases hv : a.verbose <;> simp [hv]

theorem dictGetList_imageGcp_markers (nm : String)
    (ms : List (ℤ × Corners4)) (j : ℤ) : ∀ g : Dict (List String),
    dictGetList (imageGcp g nm (.markers ms)) j =
      dictGetList g j ++
        ms.filterMap (fun m => if m.1 = j then some nm else none) := by
  induction ms with
  | nil => intro g; simp [imageGcp, dictGetList]
  | cons m rest ih =>
    intro g
    have hstep : imageGcp g nm (.markers (m :: rest)) =
        imageGcp (dictSet g m.1 ((dictGet? g m.1).getD [] ++ [nm])) nm
          (.markers rest) := by
      simp [imageGcp]
    rw [hstep, ih]
    by_cases h : m.1 = j
    · subst h
      simp [dictGetList, dictGet?_dictSet_self]
    · simp [dictGetList, dictGet?_dictSet_ne _ _ _ _ (fun hh => h hh.symm), h]

/-- Claim C1, counterexample: for the marker with corner x values
0, 0, 0, 1 the unweighted average of the corner x coordinates is 1/4,
but the x written to the output (default layout, no world coordinates)
is the rounded value 0, so the written position is not the exact
centroid. -/
theorem center_not_exact_mean :
    (process_marker .dflt [] ⟨[], [], []⟩ "img.jpg" (5, cornersC1)).output =
      ["5 0 0 img.jpg\n"] ∧
    np_average cornersC1.xs = 1 / 4 ∧
    ¬ ((centerX cornersC1 : ℚ) = np_average cornersC1.xs) := by
  refine ⟨by decide, by decide, by decide⟩

/-- Claim C1, amended: for every detected marker, the (x, y) position
written to the output is the unweighted average of its four corner
coordinates rounded to the nearest integer (ties to even), in every
output layout. -/
theorem written_center_is_rounded_mean (ty : OutType) (coords : Dict Coord3)
    (st : ProcState) (nm : String) (j : ℤ) (c : Corners4) :
    (process_marker ty coords st nm (j, c)).output = st.output ++
      markerLines ty (dictGet? coords j) j
        (pyRound ((c.p0.1 + c.p1.1 + c.p2.1 + c.p3.1) / 4))
        (pyRound ((c.p0.2 + c.p1.2 + c.p2.2 + c.p3.2) / 4)) (basename nm) := by
  have hx : np_average c.xs = (c.p0.1 + c.p1.1 + c.p2.1 + c.p3.1) / 4 := by
    simp [np_average, Corners4.xs]
    ring
  have hy : np_average c.ys = (c.p0.2 + c.p1.2 + c.p2.2 + c.p3.2) / 4 := by
    simp [np_average, Corners4.ys]
    ring
  rw [process_marker_eq]
  simp [centerX, centerY, hx, hy]

/-- Claim C3: for every detected marker, the emitted output lines are a
function of the selected output type applied to the marker record
(`markerLines`, one fixed text layout per type), independent of any other
state. -/
theorem marker_output_layout_by_type (ty : OutType) (coords : Dict Coord3)
    (st : ProcState) (nm : String) (j : ℤ) (c : Corners4) :
    (process_marker ty coords st nm (j, c)).output =
      st.output ++ markerLines ty (dictGet? coords j) j (centerX c)
        (centerY c) (basename nm) := by
  rw [process_marker_eq]

/-- Claim C4, counterexample: in the default output mode a detected marker
whose id has no world coordinates produces no warning at all; it writes an
output line instead. -/
theorem default_type_no_warning_without_coords :
    (process_image ⟨.dflt, false⟩ [] ⟨[], [], []⟩ "p.jpg"
        (.markers [(7, cornersB)])).prints = [] ∧
    (process_image ⟨.dflt, false⟩ [] ⟨[], [], []⟩ "p.jpg"
        (.markers [(7, cornersB)])).output = ["7 1 1 p.jpg\n"] := by
  refine ⟨by decide, by decide⟩

/-- Claim C4, amended: in the ODM and VisualSfM output modes a detected
marker whose id has no world coordinates produces exactly one warning
line on the console and changes nothing else: the output file is
untouched, the marker is still recorded in `gcp_found`, and processing
continues from this state. -/
theorem missing_coords_warn_and_continue (ty : OutType)
    (coords : Dict Coord3) (st : ProcState) (nm : String) (j : ℤ)
    (c : Corners4) (hty : ty = .ODM ∨ ty = .VisualSfM)
    (hco : dictGet? coords j = none) :
    process_marker ty coords st nm (j, c) =
      { st with
        gcp_found := dictSet st.gcp_found j
          ((dictGet? st.gcp_found j).getD [] ++ [nm])
        prints := st.prints ++ ["No coordinates for " ++ toString j] } := by
  rcases hty with h | h <;> subst h <;>
    rw [process_marker_eq] <;>
      simp [markerLines, markerPrints, hco]

/-- Claim C4, witness for the amended statement at a concrete input. -/
theorem missing_coords_warn_and_continue_witness :
    process_marker .ODM [] ⟨[], [], []⟩ "w.jpg" (3, cornersB) =
      { gcp_found := [(3, ["w.jpg"])], output := [],
        prints := ["No coordinates for 3"] } :=
  missing_coords_warn_and_continue .ODM [] ⟨[], [], []⟩ "w.jpg" 3 cornersB
    (Or.inl rfl) rfl

/-- Claim C5, counterexample: ODM mode, no world coordinates for id 5,
and id 5 detected twice on one image: both occurrences are recorded in
the per-id image list and the duplicate warning is printed, but no output
record at all is produced, contradicting that every occurrence produces
its own output record. -/
theorem odm_duplicate_without_coords_no_records :
    (process_image ⟨.ODM, false⟩ [] ⟨[], [], []⟩ "i.jpg"
        (.markers [(5, cornersB), (5, cornersB)])).output = [] ∧
    (process_image ⟨.ODM, false⟩ [] ⟨[], [], []⟩ "i.jpg"
        (.markers [(5, cornersB), (5, cornersB)])).gcp_found =
      [(5, ["i.jpg", "i.jpg"])] ∧
    (process_image ⟨.ODM, false⟩ [] ⟨[], [], []⟩ "i.jpg"
        (.markers [(5, cornersB), (5, cornersB)])).prints =
      ["duplicate markers on image i.jpg", "marker ids: [5, 5]",
       "No coordinates for 5", "No coordinates for 5"] := by
  refine ⟨by decide, by decide, by decide⟩

/-- Claim C5, amended: duplicate marker ids on one image only add the
duplicate warning to the console (within `imagePrints`); no occurrence is
deduplicated or resolved: every occurrence of an id is appended to the
per-id image list, and every occurrence independently contributes its own
output record (or, in ODM/VisualSfM mode without world coordinates, its
own warning). -/
theorem duplicates_not_deduplicated (a : Args) (coords : Dict Coord3)
    (st : ProcState) (nm : String) (ms : List (ℤ × Corners4)) (j : ℤ) :
    dictGetList ((process_image a coords st nm (.markers ms)).gcp_found) j =
      dictGetList st.gcp_found j ++
        ms.filterMap (fun m => if m.1 = j then some nm else none) ∧
    (process_image a coords st nm (.markers ms)).output =
      st.output ++ (ms.map (fun m => markerLines a.type
        (dictGet? coords m.1) m.1 (centerX m.2) (centerY m.2)
        (basename nm))).flatten ∧
    (process_image a coords st nm (.markers ms)).prints =
      st.prints ++ imagePrints a coords nm (.markers ms) := by
  refine ⟨?_, ?_, ?_⟩
  · rw [process_image_eq]
    exact dictGetList_imageGcp_markers nm ms j st.gcp_found
  · rw [process_image_eq]
    rfl
  · rw [process_image_eq]

/-- Claim C6: an unreadable image and an image without detected markers
each add exactly one printed message and leave everything else unchanged;
in a whole run, inserting such an image anywhere leaves the accumulated
`gcp_found` table and the output file of the run exactly as if the image
were absent, and the remaining images are processed unchanged. -/
theorem unreadable_or_empty_skipped (a : Args) (coords : Dict Coord3)
    (st : ProcState) (nm : String) (pre post : List (String × ImageData)) :
    (process_image a coords st nm .unreadable =
      { st with prints := st.prints ++ ["error reading image: " ++ nm] }) ∧
    (process_image a coords st nm .noMarkers =
      { st with prints :=
          st.prints ++ ["No markers found on image " ++ nm] }) ∧
    ((process_images a coords st
        (pre ++ (nm, ImageData.unreadable) :: post)).gcp_found =
      (process_images a coords st (pre ++ post)).gcp_found) ∧
    ((process_images a coords st
        (pre ++ (nm, ImageData.unreadable) :: post)).output =
      (process_images a coords st (pre ++ post)).output) ∧
    ((process_images a coords st
        (pre ++ (nm, ImageData.noMarkers) :: post)).gcp_found =
      (process_images a coords st (pre ++ post)).gcp_found) ∧
    ((process_images a coords st
        (pre ++ (nm, ImageData.noMarkers) :: post)).output =
      (process_images a coords st (pre ++ post)).output) := by
  refine ⟨by simp [process_image], by simp [process_image], ?_, ?_, ?_, ?_⟩ <;>
    simp only [process_images_eq] <;>
      simp [runGcp, runOut, imageGcp, imageOut, List.foldl_append]

/-- Claim C8: images are processed in command line order and the output
lines of a run are exactly the concatenation, image by image in that
order, of each image's lines in detection order (`imageOut`); the only
state carried across images is the `gcp_found` table, accumulated by
appending (`runGcp`). -/
theorem output_grouped_by_image_in_order (a : Args) (coords : Dict Coord3)
    (st : ProcState) (images : List (String × ImageData)) :
    (process_images a coords st images).output =
      st.output ++
        (images.map (fun p => imageOut a.type coords p.1 p.2)).flatten ∧
    (process_images a coords st images).gcp_found =
      runGcp st.gcp_found images := by
  rw [process_images_eq]
  exact ⟨rfl, rfl⟩

/-- Claim C9: a detected marker whose id has no world coordinates emits
no output line in ODM and VisualSfM modes (only the console warning), but
does emit the line `id x y basename` in the default mode (with no
warning); and when world coordinates are present, the VisualSfM and
default layouts do not depend on the marker id at all, so the id appears
in an output line only in ODM mode and in the default no-coordinates
case. -/
theorem no_coord_marker_emission_by_type (coords coords2 : Dict Coord3)
    (st : ProcState) (nm : String) (j j2 : ℤ) (c : Corners4) (v : Coord3)
    (hco : dictGet? coords j = none)
    (h2 : dictGet? coords2 j = some v)
    (h2b : dictGet? coords2 j2 = some v) :
    ((process_marker .ODM coords st nm (j, c)).output = st.output ∧
      (process_marker .ODM coords st nm (j, c)).prints =
        st.prints ++ ["No coordinates for " ++ toString j]) ∧
    ((process_marker .VisualSfM coords st nm (j, c)).output = st.output ∧
      (process_marker .VisualSfM coords st nm (j, c)).prints =
        st.prints ++ ["No coordinates for " ++ toString j]) ∧
    ((process_marker .dflt coords st nm (j, c)).output = st.output ++
        [toString j ++ " " ++ toString (centerX c) ++ " " ++
          toString (centerY c) ++ " " ++ basename nm ++ "\n"] ∧
      (process_marker .dflt coords st nm (j, c)).prints = st.prints) ∧
    ((process_marker .VisualSfM coords2 st nm (j, c)).output =
      (process_marker .VisualSfM coords2 st nm (j2, c)).output) ∧
    ((process_marker .dflt coords2 st nm (j, c)).output =
      (process_marker .dflt coords2 st nm (j2, c)).output) := by
  obtain ⟨e, n, q⟩ := v
  simp only [process_marker_eq]
  simp [markerLines, markerPrints, hco, h2, h2b]

/-- Claim C9, witness at concrete inputs. -/
theorem no_coord_marker_emission_by_type_witness :
    dictGet? ([] : Dict Coord3) 1 = none ∧
    dictGet? [(1, ((1 : ℚ), (2 : ℚ), (3 : ℚ))), (2, (1, 2, 3))] 1 =
      some (1, 2, 3) ∧
    (((process_marker .ODM [] ⟨[], [], []⟩ "n.jpg" (1, cornersB)).output =
        [] ∧
      (process_marker .ODM [] ⟨[], [], []⟩ "n.jpg" (1, cornersB)).prints =
        ["No coordinates for 1"]) ∧
    ((process_marker .VisualSfM [] ⟨[], [], []⟩ "n.jpg"
        (1, cornersB)).output = [] ∧
      (process_marker .VisualSfM [] ⟨[], [], []⟩ "n.jpg"
        (1, cornersB)).prints = ["No coordinates for 1"]) ∧
    ((process_marker .dflt [] ⟨[], [], []⟩ "n.jpg" (1, cornersB)).output =
        ["1 1 1 n.jpg\n"] ∧
      (process_marker .dflt [] ⟨[], [], []⟩ "n.jpg" (1, cornersB)).prints =
        []) ∧
    ((process_marker .VisualSfM [(1, (1, 2, 3)), (2, (1, 2, 3))]
        ⟨[], [], []⟩ "n.jpg" (1, cornersB)).output =
      (process_marker .VisualSfM [(1, (1, 2, 3)), (2, (1, 2, 3))]
        ⟨[], [], []⟩ "n.jpg" (2, cornersB)).output) ∧
    ((process_marker .dflt [(1, (1, 2, 3)), (2, (1, 2, 3))]
        ⟨[], [], []⟩ "n.jpg" (1, cornersB)).output =
      (process_marker .dflt [(1, (1, 2, 3)), (2, (1, 2, 3))]
        ⟨[], [], []⟩ "n.jpg" (2, cornersB)).output)) :=
  ⟨rfl, rfl,
    no_coord_marker_emission_by_type [] [(1, (1, 2, 3)), (2, (1, 2, 3))]
      ⟨[], [], []⟩ "n.jpg" 1 2 cornersB (1, 2, 3) rfl rfl rfl⟩

theorem coo_line_short (sep : String) (acc : CooAcc) (line : String)
    (h : (pySplit sep (pyStrip line)).length < 4) :
    coo_line sep acc line =
      .ok { acc with prints := acc.prints ++ ["Illegal input: " ++ line] } := by
  rcases hs : pySplit sep (pyStrip line) with _ | ⟨f0, _ | ⟨f1, _ | ⟨f2, _ | ⟨f3, r⟩⟩⟩⟩ <;>
    rw [hs] at h
  · simp [coo_line, hs]
  · simp [coo_line, hs]
  · simp [coo_line, hs]
  · simp [coo_line, hs]
  · simp only [List.length_cons] at h
    omega

theorem coo_line_store (sep : String) (acc : CooAcc) (line : String)
    (f0 f1 f2 f3 : String) (r : List String) (j : ℤ) (e n q : ℚ)
    (hs : pySplit sep (pyStrip line) = f0 :: f1 :: f2 :: f3 :: r)
    (h0 : pyInt f0 = some j) (h1 : pyFloat f1 = some e)
    (h2 : pyFloat f2 = some n) (h3 : pyFloat f3 = some q) :
    coo_line sep acc line =
      .ok { acc with coords := dictSet acc.coords j (e, n, q) } := by
  simp [coo_line, hs, h0, h1, h2, h3]

/-- Claim C2, counterexample: a coordinate-file line with four fields
whose first field is not numeric makes `coo_input` raise an uncaught
`ValueError`, so processing the coordinate file is not exception-free for
every line text. -/
theorem coo_input_raises_on_nonnumeric :
    coo_input " " ⟨[], []⟩ ["x 1 2 3"] = .error "ValueError" := rfl

/-- Claim C2, amended: the non-fatal-print behaviour holds except for
coordinate-file field parsing: whenever every line of the coordinate file
either has fewer than four fields (reported as illegal input and skipped)
or has numeric first four fields, `coo_input` completes without raising. -/
theorem coo_input_ok_of_wellformed (sep : String) (lines : List String) :
    ∀ acc : CooAcc, (∀ l ∈ lines, wellformed sep l = true) →
    ∃ acc2, coo_input sep acc lines = .ok acc2 := by
  induction lines with
  | nil => exact fun acc _ => ⟨acc, rfl⟩
  | cons l rest ih =>
    intro acc hall
    have hl := hall l (List.mem_cons_self l rest)
    have hok : ∃ acc1, coo_line sep acc l = .ok acc1 := by
      rcases hs : pySplit sep (pyStrip l) with _ | ⟨f0, _ | ⟨f1, _ | ⟨f2, _ | ⟨f3, r⟩⟩⟩⟩
      · exact ⟨_, coo_line_short sep acc l (by rw [hs]; simp)⟩
      · exact ⟨_, coo_line_short sep acc l (by rw [hs]; simp)⟩
      · exact ⟨_, coo_line_short sep acc l (by rw [hs]; simp)⟩
      · exact ⟨_, coo_line_short sep acc l (by rw [hs]; simp)⟩
      · unfold wellformed at hl
        rw [hs] at hl
        simp only [Bool.and_eq_true] at hl
        obtain ⟨⟨⟨hj, he⟩, hn⟩, hq⟩ := hl
        obtain ⟨j, hj⟩ := Option.isSome_iff_exists.mp hj
        obtain ⟨e, he⟩ := Option.isSome_iff_exists.mp he
        obtain ⟨n, hn⟩ := Option.isSome_iff_exists.mp hn
        obtain ⟨q, hq⟩ := Option.isSome_iff_exists.mp hq
        exact ⟨_, coo_line_store sep acc l f0 f1 f2 f3 r j e n q hs hj he hn hq⟩
    obtain ⟨acc1, h1⟩ := hok
    obtain ⟨acc2, h2⟩ := ih acc1 (fun x hx => hall x (List.mem_cons_of_mem _ hx))
    exact ⟨acc2, by simp [coo_input, h1, h2]⟩

/-- Claim C2, witness for the amended statement at a concrete input. -/
theorem coo_input_ok_of_wellformed_witness :
    (∀ l ∈ ["5 1 2 3", "too few"], wellformed " " l = true) ∧
    ∃ acc2, coo_input " " ⟨[], []⟩ ["5 1 2 3", "too few"] = .ok acc2 :=
  ⟨by decide,
    coo_input_ok_of_wellformed " " ["5 1 2 3", "too few"] ⟨[], []⟩ (by decide)⟩

/-- Claim C7, counterexample: a line with four fields that are not
numeric is neither skipped nor stored: `coo_line` raises an uncaught
`ValueError` instead of storing fields 2-4 under the id in field 1. -/
theorem coo_line_error_nonnumeric_fields :
    coo_line " " ⟨[], []⟩ "a b c d" = .error "ValueError" := rfl

/-- Claim C7, amended: a line with fewer than four fields is reported as
`Illegal input` and skipped without affecting the mapping; a line with at
least four fields whose first field parses as an integer and whose fields
2-4 parse as floats stores fields 2-4 as the three coordinates under the
id in field 1 (other lines with at least four fields raise
`ValueError`). -/
theorem coo_line_spec (sep : String) (acc : CooAcc) (line : String) :
    ((pySplit sep (pyStrip line)).length < 4 →
      coo_line sep acc line =
        .ok { acc with
          prints := acc.prints ++ ["Illegal input: " ++ line] }) ∧
    (∀ f0 f1 f2 f3 r j e n q,
      pySplit sep (pyStrip line) = f0 :: f1 :: f2 :: f3 :: r →
      pyInt f0 = some j → pyFloat f1 = some e → pyFloat f2 = some n →
      pyFloat f3 = some q →
      coo_line sep acc line =
        .ok { acc with coords := dictSet acc.coords j (e, n, q) }) :=
  ⟨coo_line_short sep acc line,
    fun f0 f1 f2 f3 r j e n q hs h0 h1 h2 h3 =>
      coo_line_store sep acc line f0 f1 f2 f3 r j e n q hs h0 h1 h2 h3⟩

/-- Claim C7, witness at concrete inputs: a two-field line is skipped
with the illegal-input report; the line `7 1 2 3` stores `7 ↦ (1, 2, 3)`. -/
theorem coo_line_spec_witness :
    coo_line " " ⟨[], []⟩ "a b" = .ok ⟨[], ["Illegal input: a b"]⟩ ∧
    coo_line " " ⟨[], []⟩ "7 1 2 3" = .ok ⟨[(7, (1, 2, 3))], []⟩ :=
  ⟨(coo_line_spec " " ⟨[], []⟩ "a b").1 (by decide),
    (coo_line_spec " " ⟨[], []⟩ "7 1 2 3").2 "7" "1" "2" "3" [] 7 1 2 3
      rfl rfl rfl rfl rfl⟩

theorem coo_input_append (sep : String) (l1 l2 : List String) :
    ∀ acc acc1 : CooAcc, coo_input sep acc l1 = .ok acc1 →
    coo_input sep acc (l1 ++ l2) = coo_input sep acc1 l2 := by
  induction l1 with
  | nil =>
    intro acc acc1 h
    simp [coo_input] at h
    subst h
    rfl
  | cons l rest ih =>
    intro acc acc1 h
    cases hl : coo_line sep acc l with
    | ok a2 =>
      rw [coo_input, hl] at h
      rw [List.cons_append, coo_input, hl]
      exact ih a2 acc1 h
    | error e =>
      rw [coo_input, hl] at h
      exact absurd h (by simp)

/-- Claim C10: processing one more coordinate-file line that is a valid
record for id `j` overwrites whatever an earlier line stored for `j`
(later lines win) and changes no other id; and any fields beyond the
fourth are ignored: two lines whose first four fields agree are processed
identically. -/
theorem coo_last_record_wins (sep : String) (acc acc1 : CooAcc)
    (lines : List String) (l l2 : String) (f0 f1 f2 f3 : String)
    (r r2 : List String) (j : ℤ) (e n q : ℚ)
    (hok : coo_input sep acc lines = .ok acc1)
    (hs : pySplit sep (pyStrip l) = f0 :: f1 :: f2 :: f3 :: r)
    (hs2 : pySplit sep (pyStrip l2) = f0 :: f1 :: f2 :: f3 :: r2)
    (h0 : pyInt f0 = some j) (h1 : pyFloat f1 = some e)
    (h2 : pyFloat f2 = some n) (h3 : pyFloat f3 = some q) :
    (coo_input sep acc (lines ++ [l]) =
      .ok { acc1 with coords := dictSet acc1.coords j (e, n, q) }) ∧
    dictGet? (dictSet acc1.coords j (e, n, q)) j = some (e, n, q) ∧
    (∀ k, k ≠ j →
      dictGet? (dictSet acc1.coords j (e, n, q)) k =
        dictGet? acc1.coords k) ∧
    coo_line sep acc1 l = coo_line sep acc1 l2 := by
  refine ⟨?_, dictGet?_dictSet_self _ _ _,
    fun k hk => dictGet?_dictSet_ne _ _ _ _ hk, ?_⟩
  · rw [coo_input_append sep lines [l] acc acc1 hok, coo_input,
      coo_line_store sep acc1 l f0 f1 f2 f3 r j e n q hs h0 h1 h2 h3]
    rfl
  · rw [coo_line_store sep acc1 l f0 f1 f2 f3 r j e n q hs h0 h1 h2 h3,
      coo_line_store sep acc1 l2 f0 f1 f2 f3 r2 j e n q hs2 h0 h1 h2 h3]

/-- Claim C10, witness at concrete inputs: after `5 1 2 3`, the record
`5 9 8 7 junk` overwrites id 5 with (9, 8, 7), its fifth field is
ignored, and it is processed exactly like `5 9 8 7`. -/
theorem coo_last_record_wins_witness :
    (coo_input " " ⟨[], []⟩ ["5 1 2 3"] = .ok ⟨[(5, (1, 2, 3))], []⟩) ∧
    (coo_input " " ⟨[], []⟩ (["5 1 2 3"] ++ ["5 9 8 7 junk"]) =
      .ok ⟨[(5, (9, 8, 7))], []⟩) ∧
    dictGet? (dictSet ([(5, ((1 : ℚ), (2 : ℚ), (3 : ℚ)))] : Dict Coord3)
      5 (9, 8, 7)) 5 = some (9, 8, 7) ∧
    (∀ k, k ≠ 5 →
      dictGet? (dictSet ([(5, ((1 : ℚ), (2 : ℚ), (3 : ℚ)))] : Dict Coord3)
        5 (9, 8, 7)) k =
        dictGet? ([(5, ((1 : ℚ), (2 : ℚ), (3 : ℚ)))] : Dict Coord3) k) ∧
    coo_line " " ⟨[(5, (1, 2, 3))], []⟩ "5 9 8 7 junk" =
      coo_line " " ⟨[(5, (1, 2, 3))], []⟩ "5 9 8 7" :=
  have h := coo_last_record_wins " " ⟨[], []⟩ ⟨[(5, (1, 2, 3))], []⟩
    ["5 1 2 3"] "5 9 8 7 junk" "5 9 8 7" "5" "9" "8" "7" ["junk"] []
    5 9 8 7 rfl rfl rfl rfl rfl rfl rfl
  ⟨rfl, h.1, h.2.1, h.2.2.1, h.2.2.2⟩
